import Mathlib

/-!
Verification of the Smart Traffic System core (`app.py`) against its
specification.  The Python source is shallowly embedded below:

* pure computations (`IoTSimulator.generate_sensor_data`,
  `TrafficPredictor.predict`, `generate_training_data`) become Lean
  functions over `ℤ`/`ℚ`;
* every call to `random.randint`/`random.choice` becomes an explicit
  integer parameter, constrained by a validity predicate giving the
  exact bounds the source passes to `randint`;
* the sklearn estimator and scaler (external library state, not code of
  this repository) are abstract function-valued fields; fitting them is
  an abstract `FitAlg`;
* the sqlite table becomes a list of rows, and the one-commit-per-tick
  transaction of `store_traffic_data` becomes an outcome type: either
  the whole pending row list is appended (commit) or the table is
  returned unchanged (exception before commit);
* `datetime.now()` becomes an explicit `DateTime` argument, and Python
  floats are idealised as rationals (`0.15 ↦ 15/100`, `int(x)` ↦
  truncation toward zero, `round(x, 1)` ↦ round-half-even at one
  decimal).
-/

/-- Truncation toward zero, the behaviour of Python's `int()` on a number. -/
def truncQ (q : ℚ) : ℤ := if 0 ≤ q then ⌊q⌋ else -⌊-q⌋

/-- Round to the nearest integer, ties to even: Python's `round()`. -/
def roundHalfEven (q : ℚ) : ℤ :=
  if q - (⌊q⌋ : ℚ) < 1/2 then ⌊q⌋
  else if 1/2 < q - (⌊q⌋ : ℚ) then ⌊q⌋ + 1
  else if ⌊q⌋ % 2 = 0 then ⌊q⌋ else ⌊q⌋ + 1

/-- Python's `round(q, 1)`: round to one decimal place. -/
def round1 (q : ℚ) : ℚ := (roundHalfEven (10 * q) : ℚ) / 10

/-- Substring test `needle` matching at the head of `hay`
(helper for Python's `needle in hay` on strings). -/
def subAt : List Char → List Char → Bool
  | [], _ => true
  | _ :: _, [] => false
  | n :: ns, h :: hs => n == h && subAt ns hs

/-- Python's substring containment `needle in hay`. -/
def hasSub (needle : List Char) (hay : List Char) : Bool :=
  subAt needle hay ||
    match hay with
    | [] => false
    | _ :: hs => hasSub needle hs

/-- The static congestion class of a location
(`congestion_type` in the sensor table of `IoTSimulator.__init__`). -/
inductive CongestionType where
  | high
  | medium
  | low
deriving DecidableEq

/-- The derived congestion label of one reading
(the `congestion_level` entry of `generate_sensor_data`). -/
inductive Level where
  | Low
  | Medium
  | High
deriving DecidableEq

/-- Static location metadata, one value of the `self.sensors` dict. -/
structure Location where
  lat : ℚ
  lng : ℚ
  name : String
  congestion_type : CongestionType
deriving DecidableEq

/-- The slice of `datetime.now()` that the core reads: `hour`,
`weekday()`, and an abstract token `iso` standing for `isoformat()`. -/
structure DateTime where
  hour : ℤ
  weekday : ℤ
  iso : ℤ
deriving DecidableEq

/-- The three `random.randint` draws made for one sensor in one pass of
the loop body of `generate_sensor_data`: the time-of-day band amount,
the `randint(-15, 15)` count jitter, and the speed jitter. -/
structure SensorDraws where
  bandDraw : ℤ
  jitter : ℤ
  speedJitter : ℤ
deriving DecidableEq

/-- Hour test `7 <= hour <= 11 or 16 <= hour <= 21` (extended rush). -/
def isRushHour (h : ℤ) : Bool := decide ((7 ≤ h ∧ h ≤ 11) ∨ (16 ≤ h ∧ h ≤ 21))

/-- Hour test `12 <= hour <= 15` (afternoon). -/
def isMidday (h : ℤ) : Bool := decide (12 ≤ h ∧ h ≤ 15)

/-- Hour test `22 <= hour or hour <= 5` (night). -/
def isNight (h : ℤ) : Bool := decide (22 ≤ h ∨ h ≤ 5)

/-- Base vehicle count per congestion class (60 / 35 / 20). -/
def baseVehicles : CongestionType → ℤ
  | .high => 60
  | .medium => 35
  | .low => 20

/-- `randint` bounds added during rush hours, per class. -/
def rushRange : CongestionType → ℤ × ℤ
  | .high => (100, 180)
  | .medium => (60, 120)
  | .low => (30, 80)

/-- `randint` bounds added during the afternoon band, per class. -/
def middayRange : CongestionType → ℤ × ℤ
  | .high => (40, 80)
  | .medium => (20, 50)
  | .low => (10, 30)

/-- `randint` bounds that replace the base at night, per class. -/
def nightRange : CongestionType → ℤ × ℤ
  | .high => (15, 35)
  | .medium => (8, 20)
  | .low => (3, 12)

/-- `randint` bounds of the speed jitter, per class. -/
def speedJitterRange : CongestionType → ℤ × ℤ
  | .high => (-10, 5)
  | .medium => (-8, 8)
  | .low => (-5, 10)

/-- The `base_vehicles` value after the time-of-day `if/elif` chain of
`generate_sensor_data`: rush and afternoon add the drawn amount to the
class base, night overwrites `base_vehicles` with the drawn amount, and
any other hour (only hour 6 in `0..23`) leaves the base unchanged. -/
def adjustedBase (c : CongestionType) (h : ℤ) (bd : ℤ) : ℤ :=
  if isRushHour h then baseVehicles c + bd
  else if isMidday h then baseVehicles c + bd
  else if isNight h then bd
  else baseVehicles c

/-- City multiplier block: `int(base * 1.4)` when `"mumbai" in sensor_id`,
`int(base * 1.2)` for `"delhi"`/`"blr"`, `int(base * 1.1)` for
`"chennai"`, unchanged otherwise. -/
def applyCityMultiplier (sensorId : List Char) (b : ℤ) : ℤ :=
  if hasSub ("mumbai".toList) sensorId then truncQ ((b : ℚ) * (14/10))
  else if hasSub ("delhi".toList) sensorId || hasSub ("blr".toList) sensorId then
    truncQ ((b : ℚ) * (12/10))
  else if hasSub ("chennai".toList) sensorId then truncQ ((b : ℚ) * (11/10))
  else b

/-- The local variable `vehicle_count` of the loop body, before the
`max(0, ...)` clamp applied when the reading dict is built. -/
def unclampedCount (sensorId : List Char) (c : CongestionType) (h : ℤ)
    (d : SensorDraws) : ℤ :=
  applyCityMultiplier sensorId (adjustedBase c h d.bandDraw) + d.jitter

/-- The speed expression per congestion class, before `round(., 1)`:
`max(2, 18 - count*0.15 + j)` / `max(5, 28 - count*0.18 + j)` /
`max(8, 40 - count*0.22 + j)`. -/
def rawAvgSpeed (c : CongestionType) (count : ℤ) (sj : ℤ) : ℚ :=
  match c with
  | .high => max 2 (18 - (count : ℚ) * (15/100) + (sj : ℚ))
  | .medium => max 5 (28 - (count : ℚ) * (18/100) + (sj : ℚ))
  | .low => max 8 (40 - (count : ℚ) * (22/100) + (sj : ℚ))

/-- The documented speed floor of each congestion class. -/
def classFloor : CongestionType → ℤ
  | .high => 2
  | .medium => 5
  | .low => 8

/-- The conditional expression
`"High" if vehicle_count > 80 else "Medium" if vehicle_count > 40 else "Low"`. -/
def levelOfCount (n : ℤ) : Level :=
  if 80 < n then .High else if 40 < n then .Medium else .Low

/-- One simulated observation: the dict appended to `data` in
`generate_sensor_data`. -/
structure SensorReading where
  sensor_id : List Char
  timestamp : ℤ
  vehicle_count : ℤ
  avg_speed : ℚ
  location : Location
  congestion_level : Level
deriving DecidableEq

/-- The body of the `for sensor_id, location in self.sensors.items()`
loop of `generate_sensor_data`, for one sensor.  `congestion_type` is
read from the location (the dict lookup defaults to `"medium"`, but
every entry of the static table carries the key, so the default is
never taken).  Note that `avg_speed` and `congestion_level` are
computed from the unclamped `vehicle_count` variable, while the stored
`vehicle_count` entry is clamped with `max(0, ...)`. -/
def generateReading (sensorId : List Char) (loc : Location) (now : DateTime)
    (d : SensorDraws) : SensorReading :=
  let c := loc.congestion_type
  let count := unclampedCount sensorId c now.hour d
  { sensor_id := sensorId
    timestamp := now.iso
    vehicle_count := max 0 count
    avg_speed := round1 (rawAvgSpeed c count d.speedJitter)
    location := loc
    congestion_level := levelOfCount count }

/-- The static sensor table of `IoTSimulator.__init__`. -/
def sensors : List (List Char × Location) :=
  [("delhi_cp".toList, ⟨286315/10000, 772167/10000, "Connaught Place, Delhi", .high⟩),
   ("delhi_iffco".toList, ⟨284595/10000, 770266/10000, "IFFCO Chowk, Gurgaon", .high⟩),
   ("delhi_lajpat".toList, ⟨285677/10000, 772334/10000, "Lajpat Nagar, Delhi", .medium⟩),
   ("delhi_dwarka".toList, ⟨285921/10000, 770460/10000, "Dwarka Sector 21, Delhi", .low⟩),
   ("blr_silk".toList, ⟨129279/10000, 776271/10000, "Silk Board Junction, Bengaluru", .high⟩),
   ("blr_electronic".toList, ⟨128456/10000, 776632/10000, "Electronic City, Bengaluru", .high⟩),
   ("blr_jayanagar".toList, ⟨129250/10000, 775946/10000, "Jayanagar 4th Block, Bengaluru", .medium⟩),
   ("blr_hebbal".toList, ⟨130358/10000, 775970/10000, "Hebbal Flyover, Bengaluru", .low⟩),
   ("mumbai_bandra".toList, ⟨190596/10000, 728295/10000, "Bandra Kurla Complex, Mumbai", .high⟩),
   ("mumbai_andheri".toList, ⟨191136/10000, 728697/10000, "Andheri East, Mumbai", .medium⟩),
   ("chennai_adyar".toList, ⟨130067/10000, 802206/10000, "Adyar Signal, Chennai", .medium⟩),
   ("chennai_omr".toList, ⟨128406/10000, 801534/10000, "OMR IT Corridor, Chennai", .low⟩)]

/-- `IoTSimulator.generate_sensor_data`: one reading per sensor of the
static table, each consuming its own randint draws. -/
def generateSensorData (now : DateTime) (draws : ℕ → SensorDraws) :
    List SensorReading :=
  sensors.enum.map fun p => generateReading p.2.1 p.2.2 now (draws p.1)

/-- Closed-interval membership, the contract of `random.randint(lo, hi)`. -/
def InClosed (p : ℤ × ℤ) (x : ℤ) : Prop := p.1 ≤ x ∧ x ≤ p.2

instance (p : ℤ × ℤ) (x : ℤ) : Decidable (InClosed p x) :=
  inferInstanceAs (Decidable (_ ∧ _))

/-- Which randint bounds the time-of-day band uses (none at hour 6,
where the source draws nothing for the band). -/
def bandRange (c : CongestionType) (h : ℤ) : Option (ℤ × ℤ) :=
  if isRushHour h then some (rushRange c)
  else if isMidday h then some (middayRange c)
  else if isNight h then some (nightRange c)
  else none

/-- Membership in an optional range (trivially true when no draw is made). -/
def OptInClosed : Option (ℤ × ℤ) → ℤ → Prop
  | none, _ => True
  | some p, x => InClosed p x

instance : (o : Option (ℤ × ℤ)) → (x : ℤ) → Decidable (OptInClosed o x)
  | none, _ => isTrue trivial
  | some p, x => inferInstanceAs (Decidable (InClosed p x))

/-- The draws of one loop-body pass lie in the bounds the source passes
to `random.randint` for that hour and congestion class. -/
def ValidDraws (c : CongestionType) (h : ℤ) (d : SensorDraws) : Prop :=
  OptInClosed (bandRange c h) d.bandDraw ∧
  InClosed (-15, 15) d.jitter ∧
  InClosed (speedJitterRange c) d.speedJitter

instance (c : CongestionType) (h : ℤ) (d : SensorDraws) :
    Decidable (ValidDraws c h d) :=
  inferInstanceAs (Decidable (_ ∧ _ ∧ _))

/-- Rounding half-to-even never goes below the floor. -/
theorem roundHalfEven_ge_floor (q : ℚ) : ⌊q⌋ ≤ roundHalfEven q := by
  unfold roundHalfEven
  split_ifs <;> omega

/-- `round(., 1)` of a value at least the integer `n` stays at least `n`. -/
theorem round1_int_le (n : ℤ) (q : ℚ) (h : (n : ℚ) ≤ q) : (n : ℚ) ≤ round1 q := by
  have h1 : (10 * n : ℤ) ≤ ⌊10 * q⌋ := by
    rw [Int.le_floor]
    push_cast
    linarith
  have h2 : (10 * n : ℤ) ≤ roundHalfEven (10 * q) :=
    le_trans h1 (roundHalfEven_ge_floor _)
  have h3 : ((10 * n : ℤ) : ℚ) ≤ (roundHalfEven (10 * q) : ℚ) := by
    exact_mod_cast h2
  unfold round1
  rw [le_div_iff₀ (by norm_num : (0 : ℚ) < 10)]
  push_cast at h3 ⊢
  linarith

/-- The raw speed expression is at least the class floor. -/
theorem rawAvgSpeed_ge_floor (c : CongestionType) (count sj : ℤ) :
    (classFloor c : ℚ) ≤ rawAvgSpeed c count sj := by
  cases c <;> simp [rawAvgSpeed, classFloor]

/-- Clamping a count with `max 0` does not change its congestion label:
both thresholds are positive, so every nonpositive count is `Low`. -/
theorem levelOfCount_clamp (u : ℤ) : levelOfCount (max 0 u) = levelOfCount u := by
  unfold levelOfCount
  rcases le_or_lt 0 u with h | h
  · rw [max_eq_right h]
  · rw [max_eq_left h.le]
    split_ifs <;> first | rfl | omega

/-- C6: the time-of-day adjustment of `generate_sensor_data` has three
disjoint bands layered on the class base (60/35/20): rush hours
(`7..11` and `16..21`) add a class-dependent draw from 100..180 /
60..120 / 30..80, the afternoon band (`12..15`) adds a smaller
class-dependent draw, and at night (`hour ≥ 22` or `≤ 5`) the base is
replaced by the draw, whose bounds are 15..35 / 8..20 / 3..12. -/
theorem sim_time_bands :
    (baseVehicles .high = 60 ∧ baseVehicles .medium = 35 ∧ baseVehicles .low = 20) ∧
    (∀ (c : CongestionType) (h bd : ℤ),
      isRushHour h = true → adjustedBase c h bd = baseVehicles c + bd) ∧
    (∀ (c : CongestionType) (h bd : ℤ),
      isMidday h = true → adjustedBase c h bd = baseVehicles c + bd) ∧
    (∀ (c : CongestionType) (h bd : ℤ),
      isNight h = true → adjustedBase c h bd = bd) ∧
    (∀ h : ℤ, ¬(isRushHour h = true ∧ isMidday h = true) ∧
      ¬(isRushHour h = true ∧ isNight h = true) ∧
      ¬(isMidday h = true ∧ isNight h = true)) ∧
    (rushRange .high = (100, 180) ∧ rushRange .medium = (60, 120) ∧
      rushRange .low = (30, 80)) ∧
    (nightRange .high = (15, 35) ∧ nightRange .medium = (8, 20) ∧
      nightRange .low = (3, 12)) ∧
    (∀ c : CongestionType,
      (middayRange c).1 < (rushRange c).1 ∧ (middayRange c).2 < (rushRange c).2) ∧
    (∀ (c : CongestionType) (h : ℤ),
      isRushHour h = true → bandRange c h = some (rushRange c)) ∧
    (∀ (c : CongestionType) (h : ℤ),
      isMidday h = true → bandRange c h = some (middayRange c)) ∧
    (∀ (c : CongestionType) (h : ℤ),
      isNight h = true → bandRange c h = some (nightRange c)) := by
  refine ⟨⟨rfl, rfl, rfl⟩, ?_, ?_, ?_, ?_, ⟨rfl, rfl, rfl⟩, ⟨rfl, rfl, rfl⟩,
    ?_, ?_, ?_, ?_⟩
  · intro c h bd hr
    simp [adjustedBase, hr]
  · intro c h bd hm
    have hr : isRushHour h = false := by
      simp only [isRushHour, isMidday, decide_eq_true_eq] at hm ⊢
      simp only [decide_eq_false_iff_not]
      omega
    simp [adjustedBase, hr, hm]
  · intro c h bd hn
    have hr : isRushHour h = false := by
      simp only [isNight, decide_eq_true_eq] at hn
      simp only [isRushHour, decide_eq_false_iff_not]
      omega
    have hm : isMidday h = false := by
      simp only [isNight, decide_eq_true_eq] at hn
      simp only [isMidday, decide_eq_false_iff_not]
      omega
    simp [adjustedBase, hr, hm, hn]
  · intro h
    simp only [isRushHour, isMidday, isNight, decide_eq_true_eq]
    omega
  · intro c
    cases c <;> simp [middayRange, rushRange]
  · intro c h hr
    simp [bandRange, hr]
  · intro c h hm
    have hr : isRushHour h = false := by
      simp only [isMidday, decide_eq_true_eq] at hm
      simp only [isRushHour, decide_eq_false_iff_not]
      omega
    simp [bandRange, hr, hm]
  · intro c h hn
    have hr : isRushHour h = false := by
      simp only [isNight, decide_eq_true_eq] at hn
      simp only [isRushHour, decide_eq_false_iff_not]
      omega
    have hm : isMidday h = false := by
      simp only [isNight, decide_eq_true_eq] at hn
      simp only [isMidday, decide_eq_false_iff_not]
      omega
    simp [bandRange, hr, hm, hn]

/-- C6 witness: rush hour 9, high class, draw 120: base 60 plus 120. -/
theorem sim_time_bands_witness :
    isRushHour 9 = true ∧ adjustedBase .high 9 120 = baseVehicles .high + 120 :=
  ⟨by decide, sim_time_bands.2.1 .high 9 120 (by decide)⟩

/-- Concrete witness inputs for simulator claims. -/
def wLoc : Location := ⟨0, 0, "w", CongestionType.high⟩

/-- A second witness location with a different congestion class. -/
def wLoc2 : Location := ⟨0, 0, "w2", CongestionType.low⟩

/-- Witness time: rush hour 9 on a Tuesday. -/
def wNow : DateTime := ⟨9, 1, 0⟩

/-- Witness draws for the rush band of a high-class location. -/
def wDraws : SensorDraws := ⟨120, 0, 0⟩

/-- C7 (amended): the speed stored in a reading equals the class
formula applied to the pre-clamp `vehicle_count` variable (which
coincides with the reading's stored `vehicle_count` whenever that
variable is nonnegative), and the speed never goes below the class
floor 2 / 5 / 8. -/
theorem sim_speed_floor_formula (sid : List Char) (loc : Location)
    (now : DateTime) (d : SensorDraws)
    (_hv : ValidDraws loc.congestion_type now.hour d) :
    (generateReading sid loc now d).avg_speed
      = round1 (rawAvgSpeed loc.congestion_type
          (unclampedCount sid loc.congestion_type now.hour d) d.speedJitter) ∧
    (0 ≤ unclampedCount sid loc.congestion_type now.hour d →
      (generateReading sid loc now d).vehicle_count
        = unclampedCount sid loc.congestion_type now.hour d) ∧
    (classFloor loc.congestion_type : ℚ) ≤ (generateReading sid loc now d).avg_speed := by
  refine ⟨rfl, ?_, ?_⟩
  · intro h0
    simp only [generateReading]
    exact max_eq_right h0
  · show (classFloor loc.congestion_type : ℚ) ≤ round1 (rawAvgSpeed _ _ _)
    exact round1_int_le _ _ (rawAvgSpeed_ge_floor _ _ _)

/-- C7 witness: a high-class reading at rush hour 9 has speed at least
the class floor 2. -/
theorem sim_speed_floor_formula_witness :
    (classFloor wLoc.congestion_type : ℚ)
      ≤ (generateReading ("delhi_cp".toList) wLoc wNow wDraws).avg_speed :=
  (sim_speed_floor_formula ("delhi_cp".toList) wLoc wNow wDraws (by decide)).2.2

/-- The location of sensor `chennai_omr` (low class, Chennai). -/
def cexLoc : Location :=
  ⟨128406/10000, 801534/10000, "OMR IT Corridor, Chennai", CongestionType.low⟩

/-- Counterexample time: night hour 3. -/
def cexNow : DateTime := ⟨3, 2, 0⟩

/-- Counterexample draws: night band minimum 3, jitter -15, speed
jitter 10 — all inside the `randint` bounds the source uses. -/
def cexDraws : SensorDraws := ⟨3, -15, 10⟩

/-- C7 counterexample: for sensor `chennai_omr` at hour 3 with valid
draws (night draw 3, jitter -15, speed jitter 10) the pre-clamp count
is `-12`, the stored `vehicle_count` is clamped to `0`, and the stored
speed (52.6) differs from the class formula applied to the reading's
stored vehicle count (50): the claim as stated fails. -/
theorem sim_speed_formula_cex :
    ValidDraws cexLoc.congestion_type cexNow.hour cexDraws ∧
    (generateReading ("chennai_omr".toList) cexLoc cexNow cexDraws).avg_speed ≠
      round1 (rawAvgSpeed cexLoc.congestion_type
        ((generateReading ("chennai_omr".toList) cexLoc cexNow cexDraws).vehicle_count)
        cexDraws.speedJitter) := by
  refine ⟨by decide, ?_⟩
  have hcount : unclampedCount ("chennai_omr".toList) CongestionType.low
      cexNow.hour cexDraws = -12 := by
    have h1 : adjustedBase CongestionType.low cexNow.hour cexDraws.bandDraw = 3 := by
      decide
    have hm : hasSub ("mumbai".toList) ("chennai_omr".toList) = false := by decide
    have hd : hasSub ("delhi".toList) ("chennai_omr".toList) = false := by decide
    have hb : hasSub ("blr".toList) ("chennai_omr".toList) = false := by decide
    have hc : hasSub ("chennai".toList) ("chennai_omr".toList) = true := by decide
    unfold unclampedCount applyCityMultiplier
    rw [h1, hm, hd, hb, hc]
    norm_num [truncQ, cexDraws]
  have hread : (generateReading ("chennai_omr".toList) cexLoc cexNow cexDraws).avg_speed
      = round1 (rawAvgSpeed CongestionType.low (-12) 10) := by
    simp only [generateReading, cexLoc, cexDraws] at hcount ⊢
    rw [hcount]
  have hvc : (generateReading ("chennai_omr".toList) cexLoc cexNow cexDraws).vehicle_count
      = 0 := by
    simp only [generateReading, cexLoc, cexDraws] at hcount ⊢
    rw [hcount]
    rfl
  rw [hread, hvc]
  have e1 : rawAvgSpeed CongestionType.low (-12) 10 = 5264/100 := by
    simp only [rawAvgSpeed]
    rw [max_eq_right (by norm_num)]
    norm_num
  have e2 : rawAvgSpeed cexLoc.congestion_type 0 cexDraws.speedJitter = 50 := by
    simp only [cexLoc, cexDraws, rawAvgSpeed]
    rw [max_eq_right (by norm_num)]
    norm_num
  rw [e1, e2]
  norm_num [round1, roundHalfEven]

/-- C8: the congestion label of every reading is the pure threshold
function of its vehicle count (`>80` High, `>40` Medium, else Low), so
two readings with equal counts carry equal labels regardless of their
locations' static congestion classes. -/
theorem sim_congestion_label :
    (∀ n : ℤ, levelOfCount n
      = if 80 < n then Level.High else if 40 < n then Level.Medium else Level.Low) ∧
    (∀ (sid : List Char) (loc : Location) (now : DateTime) (d : SensorDraws),
      (generateReading sid loc now d).congestion_level
        = levelOfCount ((generateReading sid loc now d).vehicle_count)) ∧
    (∀ (sid1 : List Char) (loc1 : Location) (now1 : DateTime) (d1 : SensorDraws)
       (sid2 : List Char) (loc2 : Location) (now2 : DateTime) (d2 : SensorDraws),
      (generateReading sid1 loc1 now1 d1).vehicle_count
          = (generateReading sid2 loc2 now2 d2).vehicle_count →
      (generateReading sid1 loc1 now1 d1).congestion_level
          = (generateReading sid2 loc2 now2 d2).congestion_level) := by
  have key : ∀ (sid : List Char) (loc : Location) (now : DateTime) (d : SensorDraws),
      (generateReading sid loc now d).congestion_level
        = levelOfCount ((generateReading sid loc now d).vehicle_count) := by
    intro sid loc now d
    simp only [generateReading]
    exact (levelOfCount_clamp _).symm
  refine ⟨fun n => rfl, key, ?_⟩
  intro sid1 loc1 now1 d1 sid2 loc2 now2 d2 heq
  rw [key, key, heq]

/-- C8 witness: a high-class and a low-class location at hour 9 with
counts both equal to 60 receive the same label. -/
theorem sim_congestion_label_witness :
    (generateReading (['x']) wLoc wNow ⟨0, 0, 0⟩).congestion_level
      = (generateReading (['x']) wLoc2 wNow ⟨40, 0, 0⟩).congestion_level :=
  sim_congestion_label.2.2 (['x']) wLoc wNow ⟨0, 0, 0⟩ (['x']) wLoc2 wNow ⟨40, 0, 0⟩
    (by decide)

/-- One synthetic labeled sample of `generate_training_data` (one row of
the returned DataFrame). -/
structure TrainingSample where
  hour : ℤ
  day_of_week : ℤ
  weather : ℤ
  traffic_flow : ℤ
deriving DecidableEq

/-- The random draws consumed while building one synthetic sample of
`generate_training_data`: the uniform feature draws and the amount of
whichever conditional `randint` calls fire for those features. -/
structure TrainDraws where
  hour : ℤ
  day_of_week : ℤ
  weather : ℤ
  rushAdd : ℤ
  middayAdd : ℤ
  nightSub : ℤ
  weekendSub : ℤ
  rainAdd : ℤ
  jitter : ℤ
deriving DecidableEq

/-- Loop body of `generate_training_data`: base flow 80, rush adds
150..300, afternoon adds 50..100, night subtracts 30..50, weekend
(`day_of_week >= 5`) subtracts 20..40, rain (`weather == 1`) adds
40..80, and the final flow is `max(0, base + randint(-30, 30))`. -/
def trainingSample (d : TrainDraws) : TrainingSample :=
  let base : ℤ := 80
  let base := if isRushHour d.hour then base + d.rushAdd
    else if isMidday d.hour then base + d.middayAdd
    else if isNight d.hour then base - d.nightSub
    else base
  let base := if 5 ≤ d.day_of_week then base - d.weekendSub else base
  let base := if d.weather = 1 then base + d.rainAdd else base
  { hour := d.hour, day_of_week := d.day_of_week, weather := d.weather,
    traffic_flow := max 0 (base + d.jitter) }

/-- `TrafficPredictor.generate_training_data`: `n` synthetic samples,
each from its own draws. -/
def generateTrainingData (draws : ℕ → TrainDraws) (n : ℕ) : List TrainingSample :=
  (List.range n).map fun i => trainingSample (draws i)

/-- Abstract fitted `StandardScaler`: its `transform` on one feature
triple.  The sklearn internals are external library state, not code of
this repository. -/
structure Scaler where
  transform : ℚ × ℚ × ℚ → ℚ × ℚ × ℚ

/-- Abstract fitted `RandomForestRegressor`: its raw `predict` on one
(already scaled) feature triple.  External library state. -/
structure RegressionModel where
  predictRaw : ℚ × ℚ × ℚ → ℚ

/-- Abstract sklearn fitting pipeline of `train_model`
(`train_test_split`, `StandardScaler.fit_transform`,
`RandomForestRegressor.fit`, `score`): from the synthesized samples it
produces a fitted scaler, a fitted estimator and a held-out score. -/
structure FitAlg where
  fit : List TrainingSample → Scaler × RegressionModel × ℚ

/-- Everything an invocation of `train_model` consumes: the abstract
fitting pipeline and the random stream of the synthetic generator. -/
structure TrainCtx where
  alg : FitAlg
  tdraws : ℕ → TrainDraws

/-- The mutable state of a `TrafficPredictor` instance: `self.model`,
`self.scaler` and `self.is_trained`. -/
structure TrafficPredictor where
  model : RegressionModel
  scaler : Scaler
  is_trained : Bool

/-- The raw estimator output for one feature triple:
`self.model.predict(self.scaler.transform([[hour, day_of_week, weather]]))[0]`. -/
def rawPrediction (p : TrafficPredictor) (h d w : ℤ) : ℚ :=
  p.model.predictRaw (p.scaler.transform ((h : ℚ), (d : ℚ), (w : ℚ)))

/-- The returned prediction: `max(0, int(prediction))`. -/
def predictValue (p : TrafficPredictor) (h d w : ℤ) : ℤ :=
  max 0 (truncQ (rawPrediction p h d w))

/-- `TrafficPredictor.train_model`: synthesize 1000 samples, run the
fitting pipeline, set `is_trained = True`, return the score.  (The
`save_model` call it also makes only touches the artifact files, which
are modeled separately for `load_model`.) -/
def TrafficPredictor.train_model (ctx : TrainCtx) (p : TrafficPredictor) :
    TrafficPredictor × ℚ :=
  let df := generateTrainingData ctx.tdraws 1000
  let r := ctx.alg.fit df
  ({ p with model := r.2.1, scaler := r.1, is_trained := true }, r.2.2)

/-- `TrafficPredictor.predict`: train first when not yet trained, then
scale, predict, clamp and truncate.  Total — no error path exists. -/
def TrafficPredictor.predict (ctx : TrainCtx) (p : TrafficPredictor) (h d w : ℤ) :
    TrafficPredictor × ℤ :=
  let p' := if p.is_trained then p else (TrafficPredictor.train_model ctx p).1
  (p', predictValue p' h d w)

/-- The clamp `max(0, int(.))` makes every prediction nonnegative. -/
theorem predictValue_nonneg (p : TrafficPredictor) (h d w : ℤ) :
    0 ≤ predictValue p h d w :=
  le_max_left 0 _

/-- C3: `predict` on an untrained model transparently runs the full
training (`train_model`), leaves the model trained, and answers with
the freshly trained state — no untrained error can surface because the
operation is total; on a trained model `predict` changes nothing. -/
theorem predict_auto_train (ctx : TrainCtx) (p : TrafficPredictor) (h d w : ℤ) :
    (p.is_trained = false →
      (TrafficPredictor.predict ctx p h d w).1 = (TrafficPredictor.train_model ctx p).1 ∧
      (TrafficPredictor.predict ctx p h d w).1.is_trained = true ∧
      (TrafficPredictor.predict ctx p h d w).2
        = predictValue (TrafficPredictor.train_model ctx p).1 h d w) ∧
    (p.is_trained = true →
      TrafficPredictor.predict ctx p h d w = (p, predictValue p h d w)) := by
  constructor
  · intro hf
    have hpred : TrafficPredictor.predict ctx p h d w
        = ((TrafficPredictor.train_model ctx p).1,
           predictValue (TrafficPredictor.train_model ctx p).1 h d w) := by
      simp [TrafficPredictor.predict, hf]
    rw [hpred]
    exact ⟨rfl, rfl, rfl⟩
  · intro ht
    simp [TrafficPredictor.predict, ht]

/-- An always-constant estimator used for concrete witnesses. -/
def wModel : RegressionModel := ⟨fun _ => 5⟩

/-- An identity scaler used for concrete witnesses. -/
def wScaler : Scaler := ⟨id⟩

/-- A constant fitting pipeline used for concrete witnesses. -/
def wCtx : TrainCtx := ⟨⟨fun _ => (wScaler, wModel, 1)⟩, fun _ => ⟨0, 0, 0, 0, 0, 0, 0, 0, 0⟩⟩

/-- A fresh untrained predictor instance. -/
def untrainedP : TrafficPredictor := ⟨wModel, wScaler, false⟩

/-- A trained predictor instance (fixed artifact). -/
def trainedP : TrafficPredictor := ⟨wModel, wScaler, true⟩

/-- C3 witness: predicting on a fresh untrained instance leaves it trained. -/
theorem predict_auto_train_witness :
    untrainedP.is_trained = false ∧
    (TrafficPredictor.predict wCtx untrainedP 8 1 0).1.is_trained = true :=
  ⟨rfl, ((predict_auto_train wCtx untrainedP 8 1 0).1 rfl).2.1⟩

/-- C4: against a trained (fixed) artifact, two successive `predict`
calls with identical arguments — even under different ambient training
contexts — return the identical integer. -/
theorem predict_deterministic (ctx1 ctx2 : TrainCtx) (p : TrafficPredictor)
    (h d w : ℤ) (ht : p.is_trained = true) :
    (TrafficPredictor.predict ctx1 p h d w).2
      = (TrafficPredictor.predict ctx2
          ((TrafficPredictor.predict ctx1 p h d w).1) h d w).2 := by
  simp [TrafficPredictor.predict, ht]

/-- C4 witness: two calls at (8, 1, 0) on a trained instance agree. -/
theorem predict_deterministic_witness :
    (TrafficPredictor.predict wCtx trainedP 8 1 0).2
      = (TrafficPredictor.predict wCtx
          ((TrafficPredictor.predict wCtx trainedP 8 1 0).1) 8 1 0).2 :=
  predict_deterministic wCtx wCtx trainedP 8 1 0 rfl

/-- C5: every value `predict` returns is a nonnegative integer, obtained
by truncating the raw estimator output and clamping at zero. -/
theorem predict_nonneg_trunc (ctx : TrainCtx) (p : TrafficPredictor) (h d w : ℤ) :
    0 ≤ (TrafficPredictor.predict ctx p h d w).2 ∧
    (TrafficPredictor.predict ctx p h d w).2
      = max 0 (truncQ (rawPrediction (TrafficPredictor.predict ctx p h d w).1 h d w)) :=
  ⟨predictValue_nonneg _ h d w, rfl⟩

/-- State of one artifact file on disk: missing, present but failing to
open or deserialize (`pickle.load`/`json.load` raises), or loading to a
value. -/
inductive FileState (α : Type) where
  | absent
  | unreadable
  | readable (content : α)

/-- The `model_info.json` payload (its content is only logged). -/
structure ModelInfo where
  trained_at : ℤ

/-- The three artifact files of the `models/` directory. -/
structure ModelFS where
  modelFile : FileState RegressionModel
  scalerFile : FileState Scaler
  infoFile : FileState ModelInfo

/-- `os.path.exists` of an artifact file. -/
def fExists {α : Type} : FileState α → Bool
  | .absent => false
  | _ => true

/-- Whether opening and deserializing the file would succeed. -/
def fReadable {α : Type} : FileState α → Bool
  | .readable _ => true
  | _ => false

/-- `TrafficPredictor.load_model`: when both the model and the scaler
file exist, unpickle the model, then the scaler, set
`is_trained = True`, and finally read the optional info file; any
exception is caught and turns into a `False` return with whatever state
mutations had already happened (in particular, an unreadable info file
is hit only after `is_trained` was set).  When either required file is
missing, return `False` without touching the state.  Total — the
`except` clause means no exception reaches the caller. -/
def TrafficPredictor.load_model (fs : ModelFS) (p : TrafficPredictor) :
    Bool × TrafficPredictor :=
  if fExists fs.modelFile && fExists fs.scalerFile then
    match fs.modelFile with
    | .readable m =>
      match fs.scalerFile with
      | .readable sc =>
        let p2 : TrafficPredictor := { model := m, scaler := sc, is_trained := true }
        if fExists fs.infoFile then
          match fs.infoFile with
          | .readable _ => (true, p2)
          | _ => (false, p2)
        else (true, p2)
      | _ => (false, { p with model := m })
    | _ => (false, p)
  else (false, p)

/-- C9: called on a fresh (untrained) instance, `load_model` returns
`False` and leaves the state untrained whenever either required file
(model pickle or scaler pickle) is absent or unreadable — it never
raises, being total — and whenever it returns `True` the state is
trained and holds exactly the model and scaler restored from disk. -/
theorem load_model_spec (fs : ModelFS) (p : TrafficPredictor)
    (hp : p.is_trained = false) :
    ((fReadable fs.modelFile = false ∨ fReadable fs.scalerFile = false) →
      (TrafficPredictor.load_model fs p).1 = false ∧
      (TrafficPredictor.load_model fs p).2.is_trained = false) ∧
    (∀ q : TrafficPredictor, TrafficPredictor.load_model fs p = (true, q) →
      q.is_trained = true ∧
      ∃ m sc, fs.modelFile = .readable m ∧ fs.scalerFile = .readable sc ∧
        q.model = m ∧ q.scaler = sc) := by
  rcases fs with ⟨mf, sf, inf⟩
  constructor
  · intro hfail
    cases mf <;> cases sf <;>
      simp_all [TrafficPredictor.load_model, fExists, fReadable, hp]
  · intro q hq
    cases mf <;> cases sf <;> cases inf <;>
      simp_all [TrafficPredictor.load_model, fExists, fReadable]
    all_goals (rw [← hq])
    all_goals exact ⟨rfl, rfl, rfl⟩

/-- Artifact directory with the model pickle missing. -/
def fsNoModel : ModelFS := ⟨FileState.absent, FileState.readable wScaler, FileState.absent⟩

/-- C9 witness: with the model file absent, loading a fresh instance
returns false and leaves it untrained. -/
theorem load_model_spec_witness :
    (TrafficPredictor.load_model fsNoModel untrainedP).1 = false ∧
    (TrafficPredictor.load_model fsNoModel untrainedP).2.is_trained = false :=
  (load_model_spec fsNoModel untrainedP rfl).1 (Or.inl rfl)

/-- One row of the sqlite `traffic_data` table (`init_db` schema):
`predicted_flow` is a nullable INTEGER column, hence `Option ℤ`. -/
structure TrafficRow where
  sensor_id : List Char
  timestamp : ℤ
  vehicle_count : ℤ
  avg_speed : ℚ
  congestion_level : Level
  predicted_flow : Option ℤ
deriving DecidableEq

/-- Outcome of the per-tick loop of `store_traffic_data` before the
final `conn.commit()`: either every record was processed and the
pending inserts are ready to commit, or an exception was raised part
way (modeled by the `failAt` injection), carrying the predictor state
mutated so far. -/
inductive TickOutcome where
  | committed (p : TrafficPredictor) (pending : List TrafficRow)
  | raised (p : TrafficPredictor)

/-- The `for record in data` loop of `store_traffic_data`: for the
`i`-th record take a fresh `datetime.now()` and a fresh random weather
code from `env i`, ask the predictor (which may auto-train), and stage
the INSERT.  `failAt i = true` injects an exception at record `i`
(covering a failure of the predict or the INSERT for that record). -/
def storeTickGo (ctx : TrainCtx) (env : ℕ → DateTime × ℤ) (failAt : ℕ → Bool) :
    ℕ → TrafficPredictor → List SensorReading → TickOutcome
  | _, p, [] => .committed p []
  | i, p, r :: rs =>
    if failAt i then .raised p
    else
      let nw := env i
      let pr := TrafficPredictor.predict ctx p nw.1.hour nw.1.weekday nw.2
      let row : TrafficRow :=
        { sensor_id := r.sensor_id, timestamp := r.timestamp,
          vehicle_count := r.vehicle_count, avg_speed := r.avg_speed,
          congestion_level := r.congestion_level, predicted_flow := some pr.2 }
      match storeTickGo ctx env failAt (i + 1) pr.1 rs with
      | .committed p2 rows => .committed p2 (row :: rows)
      | .raised p2 => .raised p2

/-- `store_traffic_data`: run the per-record loop, then `conn.commit()`
exactly once at the end.  If the loop raised, the commit never runs and
the table is unchanged (sqlite rolls the open transaction back); the
third component reports whether the call returned normally. -/
def store_traffic_data (ctx : TrainCtx) (env : ℕ → DateTime × ℤ)
    (failAt : ℕ → Bool) (p : TrafficPredictor) (db : List TrafficRow)
    (records : List SensorReading) : List TrafficRow × TrafficPredictor × Bool :=
  match storeTickGo ctx env failAt 0 p records with
  | .committed p2 rows => (db ++ rows, p2, true)
  | .raised p2 => (db, p2, false)

/-- The rows a call to `store_traffic_data` appends (empty when the
tick raised before the commit). -/
def pendingRows (ctx : TrainCtx) (env : ℕ → DateTime × ℤ) (failAt : ℕ → Bool)
    (i : ℕ) (p : TrafficPredictor) (records : List SensorReading) :
    List TrafficRow :=
  match storeTickGo ctx env failAt i p records with
  | .committed _ rows => rows
  | .raised _ => []

/-- Everything one tick of the collector loop consumes: the simulation
time and draws, the per-record time/weather of the store loop, and the
injected failure pattern. -/
structure TickInput where
  now : DateTime
  sdraws : ℕ → SensorDraws
  env : ℕ → DateTime × ℤ
  failAt : ℕ → Bool

/-- One iteration of the `while True` body of `data_collection_job`:
simulate, store, and swallow any exception (the `except` clause logs
and sleeps, it never terminates the loop). -/
def runTick (ctx : TrainCtx) (t : TickInput)
    (s : TrafficPredictor × List TrafficRow) :
    TrafficPredictor × List TrafficRow :=
  let records := generateSensorData t.now t.sdraws
  let r := store_traffic_data ctx t.env t.failAt s.1 s.2 records
  (r.2.1, r.1)

/-- `data_collection_job`, unrolled over a finite schedule of ticks:
every tick executes, whatever earlier ticks did. -/
def data_collection_job (ctx : TrainCtx) (ticks : List TickInput)
    (s : TrafficPredictor × List TrafficRow) :
    TrafficPredictor × List TrafficRow :=
  ticks.foldl (fun s t => runTick ctx t s) s

/-- If any record of the tick fails, the per-record loop raises. -/
theorem storeTickGo_raised_of_fail (ctx : TrainCtx) (env : ℕ → DateTime × ℤ)
    (failAt : ℕ → Bool) :
    ∀ (rs : List SensorReading) (i : ℕ) (p : TrafficPredictor),
      (∃ j, j < rs.length ∧ failAt (i + j) = true) →
      ∃ p2, storeTickGo ctx env failAt i p rs = .raised p2 := by
  intro rs
  induction rs with
  | nil =>
    intro i p h
    obtain ⟨j, hj, _⟩ := h
    simp at hj
  | cons r rs ih =>
    intro i p h
    obtain ⟨j, hj, hf⟩ := h
    by_cases h0 : failAt i = true
    · exact ⟨p, by simp [storeTickGo, h0]⟩
    · have hj0 : j ≠ 0 := by
        intro hz
        rw [hz, Nat.add_zero] at hf
        exact h0 hf
      obtain ⟨j', rfl⟩ : ∃ j', j = j' + 1 := ⟨j - 1, by omega⟩
      have hnext : ∃ j', j' < rs.length ∧ failAt ((i + 1) + j') = true := by
        refine ⟨j', by simpa using hj, ?_⟩
        have : i + (j' + 1) = (i + 1) + j' := by omega
        rw [← this]
        exact hf
      obtain ⟨p2, hp2⟩ := ih (i + 1)
        (TrafficPredictor.predict ctx p (env i).1.hour (env i).1.weekday (env i).2).1
        hnext
      refine ⟨p2, ?_⟩
      rw [storeTickGo]
      simp only [h0, if_false, Bool.false_eq_true]
      rw [hp2]

/-- With no failing record, the loop stages one row per record. -/
theorem storeTickGo_committed_of_ok (ctx : TrainCtx) (env : ℕ → DateTime × ℤ)
    (failAt : ℕ → Bool) :
    ∀ (rs : List SensorReading) (i : ℕ) (p : TrafficPredictor),
      (∀ j, j < rs.length → failAt (i + j) = false) →
      ∃ p2 rows, storeTickGo ctx env failAt i p rs = .committed p2 rows ∧
        rows.length = rs.length := by
  intro rs
  induction rs with
  | nil =>
    intro i p _
    exact ⟨p, [], rfl, rfl⟩
  | cons r rs ih =>
    intro i p h
    have h0 : failAt i = false := by
      have := h 0 (by simp)
      simpa using this
    have hnext : ∀ j, j < rs.length → failAt ((i + 1) + j) = false := by
      intro j hj
      have : (i + 1) + j = i + (j + 1) := by omega
      rw [this]
      exact h (j + 1) (by simpa using Nat.succ_lt_succ hj)
    obtain ⟨p2, rows, hgo, hlen⟩ := ih (i + 1)
      (TrafficPredictor.predict ctx p (env i).1.hour (env i).1.weekday (env i).2).1
      hnext
    refine ⟨p2,
      ({ sensor_id := r.sensor_id, timestamp := r.timestamp,
         vehicle_count := r.vehicle_count, avg_speed := r.avg_speed,
         congestion_level := r.congestion_level,
         predicted_flow := some (TrafficPredictor.predict ctx p
           (env i).1.hour (env i).1.weekday (env i).2).2 } : TrafficRow) :: rows,
      ?_, by simp [hlen]⟩
    rw [storeTickGo]
    simp only [h0, if_false, Bool.false_eq_true]
    rw [hgo]

/-- Every staged row carries a `some` predicted flow, and it is
nonnegative. -/
theorem storeTickGo_rows_pred (ctx : TrainCtx) (env : ℕ → DateTime × ℤ)
    (failAt : ℕ → Bool) :
    ∀ (rs : List SensorReading) (i : ℕ) (p p2 : TrafficPredictor)
      (rows : List TrafficRow),
      storeTickGo ctx env failAt i p rs = .committed p2 rows →
      ∀ row ∈ rows, ∃ v, row.predicted_flow = some v ∧ 0 ≤ v := by
  intro rs
  induction rs with
  | nil =>
    intro i p p2 rows hgo row hrow
    rw [storeTickGo] at hgo
    cases hgo
    simp at hrow
  | cons r rs ih =>
    intro i p p2 rows hgo row hrow
    rw [storeTickGo] at hgo
    by_cases h0 : failAt i = true
    · simp [h0] at hgo
    · simp only [h0, if_false, Bool.false_eq_true] at hgo
      cases hinner : storeTickGo ctx env failAt (i + 1)
          (TrafficPredictor.predict ctx p (env i).1.hour (env i).1.weekday (env i).2).1 rs with
      | committed p3 rows3 =>
        rw [hinner] at hgo
        cases hgo
        rcases List.mem_cons.mp hrow with hhead | htail
        · subst hhead
          exact ⟨_, rfl, predictValue_nonneg _ _ _ _⟩
        · exact ih _ _ _ _ hinner row htail
      | raised p3 =>
        rw [hinner] at hgo
        cases hgo

/-- C2: the tick's writes are all-or-none.  If any record of the tick
raises before the single end-of-loop commit, the stored table is
unchanged by the tick and the call raises; with no failure the commit
appends exactly one row per record of the tick. -/
theorem store_all_or_none (ctx : TrainCtx) (env : ℕ → DateTime × ℤ)
    (failAt : ℕ → Bool) (p : TrafficPredictor) (db : List TrafficRow)
    (records : List SensorReading) :
    ((∃ i, i < records.length ∧ failAt i = true) →
      (store_traffic_data ctx env failAt p db records).1 = db ∧
      (store_traffic_data ctx env failAt p db records).2.2 = false) ∧
    ((∀ i, i < records.length → failAt i = false) →
      ∃ rows, (store_traffic_data ctx env failAt p db records).1 = db ++ rows ∧
        rows.length = records.length ∧
        (store_traffic_data ctx env failAt p db records).2.2 = true) := by
  constructor
  · intro h
    obtain ⟨i, hi, hf⟩ := h
    obtain ⟨p2, hp2⟩ := storeTickGo_raised_of_fail ctx env failAt records 0 p
      ⟨i, hi, by simpa using hf⟩
    simp [store_traffic_data, hp2]
  · intro h
    obtain ⟨p2, rows, hgo, hlen⟩ := storeTickGo_committed_of_ok ctx env failAt
      records 0 p (fun j hj => by simpa using h j hj)
    exact ⟨rows, by simp [store_traffic_data, hgo], hlen,
      by simp [store_traffic_data, hgo]⟩

/-- A first concrete reading (location `delhi_cp`). -/
def rec0 : SensorReading := ⟨"delhi_cp".toList, 0, 50, 20, wLoc, Level.Medium⟩

/-- A second concrete reading of a different location (`blr_silk`). -/
def rec1 : SensorReading := ⟨"blr_silk".toList, 0, 90, 10, wLoc, Level.High⟩

/-- Failure injected at the second record of the tick only. -/
def failSecond : ℕ → Bool := fun i => decide (i = 1)

/-- C2 witness: a failure-free two-record tick commits exactly two rows. -/
theorem store_all_or_none_witness :
    ∃ rows, (store_traffic_data wCtx (fun _ => (wNow, 0)) (fun _ => false)
        trainedP [] [rec0, rec1]).1 = [] ++ rows ∧
      rows.length = [rec0, rec1].length ∧
      (store_traffic_data wCtx (fun _ => (wNow, 0)) (fun _ => false)
        trainedP [] [rec0, rec1]).2.2 = true :=
  (store_all_or_none wCtx (fun _ => (wNow, 0)) (fun _ => false)
    trainedP [] [rec0, rec1]).2 (fun _ _ => rfl)

/-- C1 counterexample: in a two-record tick where only the second
record's write fails, the first location's record is NOT persisted —
the resulting table is empty and the tick raises — refuting the claim
that the other locations of the same tick are still persisted. -/
theorem tick_isolation_cex :
    failSecond 0 = false ∧ failSecond 1 = true ∧
    (store_traffic_data wCtx (fun _ => (wNow, 0)) failSecond
      trainedP [] [rec0, rec1]).1 = [] ∧
    (store_traffic_data wCtx (fun _ => (wNow, 0)) failSecond
      trainedP [] [rec0, rec1]).2.2 = false :=
  ⟨rfl, rfl, rfl, rfl⟩

/-- C1 (amended): when one record of a tick fails, no record of that
tick is persisted (the single commit never runs); the loop nevertheless
continues — the remaining schedule runs from the unchanged table — and
any failure-free tick appends one row per sampled location. -/
theorem tick_isolation_amended (ctx : TrainCtx) (t1 : TickInput)
    (ts : List TickInput) (p : TrafficPredictor) (db : List TrafficRow)
    (hfail : ∃ i, i < (generateSensorData t1.now t1.sdraws).length ∧
      t1.failAt i = true) :
    (runTick ctx t1 (p, db)).2 = db ∧
    data_collection_job ctx (t1 :: ts) (p, db)
      = data_collection_job ctx ts ((runTick ctx t1 (p, db)).1, db) ∧
    (∀ (t2 : TickInput) (s : TrafficPredictor × List TrafficRow),
      (∀ i, t2.failAt i = false) →
      ∃ rows, (runTick ctx t2 s).2 = s.2 ++ rows ∧
        rows.length = (generateSensorData t2.now t2.sdraws).length) := by
  obtain ⟨i, hi, hf⟩ := hfail
  obtain ⟨p2, hp2⟩ := storeTickGo_raised_of_fail ctx t1.env t1.failAt
    (generateSensorData t1.now t1.sdraws) 0 p ⟨i, hi, by simpa using hf⟩
  have ha : (runTick ctx t1 (p, db)).2 = db := by
    simp [runTick, store_traffic_data, hp2]
  refine ⟨ha, ?_, ?_⟩
  · have hstep : data_collection_job ctx (t1 :: ts) (p, db)
        = data_collection_job ctx ts (runTick ctx t1 (p, db)) := rfl
    have heta : runTick ctx t1 (p, db)
        = ((runTick ctx t1 (p, db)).1, (runTick ctx t1 (p, db)).2) := rfl
    rw [hstep, heta, ha]
  · intro t2 s hok
    obtain ⟨p3, rows, hgo, hlen⟩ := storeTickGo_committed_of_ok ctx t2.env
      t2.failAt (generateSensorData t2.now t2.sdraws) 0 s.1
      (fun j _ => hok (0 + j))
    exact ⟨rows, by simp [runTick, store_traffic_data, hgo], hlen⟩

/-- A tick whose every record write fails. -/
def wTick1 : TickInput := ⟨wNow, fun _ => ⟨0, 0, 0⟩, fun _ => (wNow, 0), fun _ => true⟩

/-- C1 witness: a tick failing at its first record leaves the table
unchanged (here: empty). -/
theorem tick_isolation_amended_witness :
    (runTick wCtx wTick1 (trainedP, [])).2 = [] :=
  (tick_isolation_amended wCtx wTick1 [] trainedP [] ⟨0, by decide, rfl⟩).1

/-- C10: every row `store_traffic_data` appends carries a non-null
(`some`) predicted flow, computed before the insert, and the rows
already in the table are left untouched (append-only, never
backfilled). -/
theorem rows_have_predictions (ctx : TrainCtx) (env : ℕ → DateTime × ℤ)
    (failAt : ℕ → Bool) (p : TrafficPredictor) (db : List TrafficRow)
    (records : List SensorReading) :
    (store_traffic_data ctx env failAt p db records).1
      = db ++ pendingRows ctx env failAt 0 p records ∧
    ∀ row ∈ pendingRows ctx env failAt 0 p records,
      ∃ v, row.predicted_flow = some v ∧ 0 ≤ v := by
  cases hgo : storeTickGo ctx env failAt 0 p records with
  | committed p2 rows =>
    constructor
    · simp [store_traffic_data, pendingRows, hgo]
    · intro row hrow
      simp only [pendingRows, hgo] at hrow
      exact storeTickGo_rows_pred ctx env failAt records 0 p p2 rows hgo row hrow
  | raised p2 =>
    constructor
    · simp [store_traffic_data, pendingRows, hgo]
    · intro row hrow
      simp only [pendingRows, hgo] at hrow
      simp at hrow

/-- C10 witness: the append-only/non-null property instantiated on a
concrete failure-free one-record tick. -/
theorem rows_have_predictions_witness :
    (store_traffic_data wCtx (fun _ => (wNow, 0)) (fun _ => false)
        trainedP [] [rec0]).1
      = [] ++ pendingRows wCtx (fun _ => (wNow, 0)) (fun _ => false) 0
          trainedP [rec0] ∧
    ∀ row ∈ pendingRows wCtx (fun _ => (wNow, 0)) (fun _ => false) 0
        trainedP [rec0],
      ∃ v, row.predicted_flow = some v ∧ 0 ≤ v :=
  rows_have_predictions wCtx (fun _ => (wNow, 0)) (fun _ => false)
    trainedP [] [rec0]
